import Mathlib

/-
Verification of the WakeyWakey client's corridor generator, pixel
classification and pointer-tracking loop (src/client.py), via a shallow
embedding of the relevant functions.  Randomness (`random.randint`) is
modelled by an explicit oracle: each call consumes one natural-number
choice and maps it into the requested closed interval, so every choice
stream denotes one possible run and every possible run is denoted by
some choice stream.
-/

namespace WakeyWakey

/-- Constant MIN_LINE_LENGTH from client.py. -/
def MIN_LINE_LENGTH : Int := 5

/-- Constant LINE_THICKNESS from client.py. -/
def LINE_THICKNESS : Int := 8

/-- Constant BORDER_MARGIN from client.py. -/
def BORDER_MARGIN : Int := 10

/-- Constant PRECISION_MOUSE_THRESHOLD from client.py. -/
def PRECISION_MOUSE_THRESHOLD : Int := 7

/-- Model of Python's random.randint lo hi: the oracle choice c is folded
into the closed interval [lo, hi] (surjectively, for lo ≤ hi). -/
def randint (lo hi : Int) (c : Nat) : Int :=
  lo + (c : Int) % (hi - lo + 1)

/-- A tkinter canvas rectangle, given by two corner points (possibly
unnormalized, exactly as the coordinates are passed to create_rectangle). -/
structure Rect where
  x0 : Int
  y0 : Int
  x1 : Int
  y1 : Int
deriving DecidableEq, Repr

/-- Whether two rectangles overlap (share at least one point), after
normalizing the corner order; models canvas.find_overlapping hits. -/
def Rect.overlaps (a b : Rect) : Bool :=
  decide (max (min a.x0 a.x1) (min b.x0 b.x1) ≤ min (max a.x0 a.x1) (max b.x0 b.x1)) &&
  decide (max (min a.y0 a.y1) (min b.y0 b.y1) ≤ min (max a.y0 a.y1) (max b.y0 b.y1))

/-- determine_direction from client.py.  Note on the opposite-direction
check: `previous_direction[previous_direction != 0] * -1` is numpy
boolean-mask indexing, which keeps only the nonzero components, so the
result is a shorter array (one entry for a unit vector, empty for
(0, 0)); np.array_equal is shape-sensitive, so comparing it with the
two-component `direction` is modelled by comparing the component list
[direction.1, direction.2] with that shorter list. -/
def determine_direction (source destination previous_direction : Int × Int) : Int × Int :=
  let direct_path : Int × Int := (destination.1 - source.1, destination.2 - source.2)
  let direction : Int × Int :=
    if direct_path.1.natAbs ≥ direct_path.2.natAbs then
      if direct_path.1 ≥ 0 then (1, 0) else (-1, 0)
    else
      if direct_path.2 ≥ 0 then (0, 1) else (0, -1)
  let opposite_of_previous_direction : List Int :=
    (if previous_direction.1 ≠ 0 then [previous_direction.1 * (-1)] else []) ++
    (if previous_direction.2 ≠ 0 then [previous_direction.2 * (-1)] else [])
  if direction = previous_direction ∨
      [direction.1, direction.2] = opposite_of_previous_direction then
    (direction.2, direction.1)
  else
    direction

/-- One generated line segment: its start, its (clamped) end point, the
direction it was drawn in, and the random length that was drawn for it
(random_line_length in draw_line, recorded for the length-bound claims). -/
structure Segment where
  start : Int × Int
  line_end : Int × Int
  direction : Int × Int
  drawn_length : Int
deriving DecidableEq, Repr

/-- The thin rectangle a segment is drawn as (create_rectangle over its
start and end points). -/
def segRect (s : Segment) : Rect :=
  ⟨s.start.1, s.start.2, s.line_end.1, s.line_end.2⟩

/-- Result of one draw_line call. -/
structure DrawResult where
  line_end : Int × Int
  direction : Int × Int
  drawn_length : Int
  covers_goal : Bool
deriving DecidableEq, Repr

/-- draw_line from client.py.  The max_direction_length computation keeps
the first nonzero component of np.multiply(size, direction) and takes its
absolute value; random_line_length is drawn in
[MIN_LINE_LENGTH, max_direction_length]; the endpoint is clamped per axis
to size on that axis when it leaves [BORDER_MARGIN, size]; covers_goal is
whether the drawn rectangle overlaps the goal block. -/
def draw_line (start goal_pt size : Int × Int) (end_block : Rect)
    (previous_direction : Int × Int) (c : Nat) : DrawResult :=
  let direction := determine_direction start goal_pt previous_direction
  let max_direction_length : Int :=
    if size.1 * direction.1 ≠ 0 then ((size.1 * direction.1).natAbs : Int)
    else ((size.2 * direction.2).natAbs : Int)
  let random_line_length := randint MIN_LINE_LENGTH max_direction_length c
  let le0 : Int × Int :=
    (start.1 + direction.1 * random_line_length, start.2 + direction.2 * random_line_length)
  let line_end : Int × Int :=
    (if le0.1 > size.1 ∨ le0.1 < BORDER_MARGIN then size.1 else le0.1,
     if le0.2 > size.2 ∨ le0.2 < BORDER_MARGIN then size.2 else le0.2)
  let covers_goal := Rect.overlaps ⟨start.1, start.2, line_end.1, line_end.2⟩ end_block
  { line_end := line_end, direction := direction,
    drawn_length := random_line_length, covers_goal := covers_goal }

/-- The generation loop of create_test: repeatedly draw_line, threading
line_end and previous_direction, until covers_goal; one oracle choice per
iteration, so the choice list also bounds the number of iterations (none
means the run did not finish within the supplied choices). -/
def gen_loop (goal_pt size : Int × Int) (end_block : Rect) :
    List Nat → Int × Int → Int × Int → Option (List Segment)
  | [], _, _ => none
  | c :: cs, head, prev =>
    let r := draw_line head goal_pt size end_block prev c
    let seg : Segment :=
      { start := head, line_end := r.line_end,
        direction := r.direction, drawn_length := r.drawn_length }
    if r.covers_goal then some [seg]
    else (gen_loop goal_pt size end_block cs r.line_end r.direction).map (seg :: ·)

/-- The corridor model produced by create_test: the start point, the start
marker rectangle, the goal (end_block) rectangle, and the segments in
generation order. -/
structure CorridorModel where
  start : Int × Int
  startRect : Rect
  goal : Rect
  segments : List Segment
deriving DecidableEq, Repr

/-- create_test from client.py, with canvas.winfo_width/height passed as
W and H and the random calls fed from the oracle choices side_c (start
side), start_c, goal_c and len_cs (one choice per drawn line). -/
def create_test (W H : Int) (side_c start_c goal_c : Nat) (len_cs : List Nat) :
    Option CorridorModel :=
  let start_side := randint 1 2 side_c
  let size : Int × Int := (W - 3 - BORDER_MARGIN, H - 3 - BORDER_MARGIN)
  if start_side = 1 then
    let start : Int × Int := (BORDER_MARGIN, randint BORDER_MARGIN size.2 start_c)
    let goal_pt : Int × Int := (size.1, randint BORDER_MARGIN size.2 goal_c)
    let end_block : Rect :=
      ⟨goal_pt.1, goal_pt.2, goal_pt.1 - LINE_THICKNESS * 2, goal_pt.2 + LINE_THICKNESS * 2⟩
    (gen_loop goal_pt size end_block len_cs start (0, 0)).map fun segs =>
      { start := start,
        startRect := ⟨start.1, start.2, start.1 + LINE_THICKNESS * 2, start.2 + LINE_THICKNESS * 2⟩,
        goal := end_block,
        segments := segs }
  else
    let start : Int × Int := (randint BORDER_MARGIN size.1 start_c, BORDER_MARGIN)
    let goal_pt : Int × Int := (randint BORDER_MARGIN size.1 goal_c, size.2)
    let end_block : Rect :=
      ⟨goal_pt.1, goal_pt.2, goal_pt.1 + LINE_THICKNESS * 2, goal_pt.2 - LINE_THICKNESS * 2⟩
    (gen_loop goal_pt size end_block len_cs start (0, 0)).map fun segs =>
      { start := start,
        startRect := ⟨start.1, start.2, start.1 + LINE_THICKNESS * 2, start.2 + LINE_THICKNESS * 2⟩,
        goal := end_block,
        segments := segs }

/-- Normalized corner order of a rectangle, as canvas.coords reports it. -/
def normalizeRect (r : Rect) : Rect :=
  ⟨min r.x0 r.x1, min r.y0 r.y1, max r.x0 r.x1, max r.y0 r.y1⟩

/-- increase_line_thickness from client.py applied to one line: read the
normalized coords, add the increase factor to x1 and y1, redraw. -/
def thicken (r : Rect) (increase_factor : Int) : Rect :=
  let n := normalizeRect r
  ⟨n.x0, n.y0, n.x1 + increase_factor, n.y1 + increase_factor⟩

/-- Python's str.upper on the ASCII color names appearing on this canvas
(String.toUpper itself does not reduce in the kernel, so the uppercase map
is spelled out over the character list). -/
def upper (s : String) : String :=
  String.mk (s.data.map fun c => if c.isLower then Char.ofNat (c.toNat - 32) else c)

/-- One item on the canvas: its rectangle and its fill color as created
(start marker "green", goal block "red", lines "black"). -/
structure CanvasItem where
  rect : Rect
  fill : String
deriving DecidableEq, Repr

/-- The canvas contents after create_test finishes: the start marker, the
goal block, and every segment thickened by LINE_THICKNESS (the thin lines
are deleted and replaced by increase_line_thickness). -/
def model_canvas (m : CorridorModel) : List CanvasItem :=
  { rect := m.startRect, fill := "green" } ::
  { rect := m.goal, fill := "red" } ::
  m.segments.map fun s => { rect := thicken (segRect s) LINE_THICKNESS, fill := "black" }

/-- get_pixel_color from client.py: collect the (uppercased, nonempty)
fill colors of the items overlapping the query point, then answer in the
priority order red, green, black, white. -/
def get_pixel_color (canvas : List CanvasItem) (x y : Int) : String :=
  let ids := canvas.filter fun it => Rect.overlaps it.rect ⟨x, y, x, y⟩
  let colors := (ids.map fun it => upper it.fill).filter fun color => color ≠ ""
  if "RED" ∈ colors then "RED"
  else if "GREEN" ∈ colors then "GREEN"
  else if "BLACK" ∈ colors then "BLACK"
  else "WHITE"

/-- Result of one handle_cheating call: the moveTo command it emitted (if
any) and the (new_previous_x, new_previous_y) pair it returns. -/
structure CheatResult where
  moveTo : Option (Int × Int)
  new_previous : Int × Int
deriving DecidableEq, Repr

/-- handle_cheating from client.py, with the current pointer sample passed
explicitly.  abs on Python ints is modelled by Int.natAbs (compared over
Nat, PRECISION_MOUSE_THRESHOLD = 7 being nonnegative). -/
def handle_cheating (previous current : Int × Int) : CheatResult :=
  let movement : Int × Int := (current.1 - previous.1, current.2 - previous.2)
  if movement.1.natAbs > movement.2.natAbs then
    if (movement.1.natAbs : Int) > PRECISION_MOUSE_THRESHOLD then
      { moveTo := some (previous.1 + movement.1 * (-1), current.2),
        new_previous := (previous.1 + movement.1 * (-1), current.2) }
    else
      { moveTo := none, new_previous := current }
  else
    if (movement.2.natAbs : Int) > PRECISION_MOUSE_THRESHOLD then
      { moveTo := some (current.1, previous.2 + movement.2 * (-1)),
        new_previous := (current.1, previous.2 + movement.2 * (-1)) }
    else
      { moveTo := none, new_previous := current }

/-- The four pixel colors get_pixel_color can answer, i.e. the pixel
classes: RED = goal, GREEN = start, BLACK = corridor, WHITE = wall. -/
inductive PixelColor where
  | RED
  | GREEN
  | BLACK
  | WHITE
deriving DecidableEq, Repr

/-- The challenge state of the tracking loop in run_test: InProgress while
the success flag is false, Succeeded once it is set. -/
inductive ChallengeState where
  | InProgress
  | Succeeded
deriving DecidableEq, Repr

/-- What one iteration of the run_test loop does with a classified sample:
the wall branch prints the touched-wall message and teleports the pointer
to the start marker (shifted by the window title margin on y, as the
moveTo call at client.py:460 does); the goal branch sets success; the
corridor and start branches just keep polling. -/
structure TickResult where
  touched_wall : Bool
  moveTo : Option (Int × Int)
  success : Bool
deriving DecidableEq, Repr

/-- One iteration of the run_test polling loop, as a function of the
classified color of the pixel under the (offset-corrected) pointer. -/
def run_test_tick (start : Int × Int) (window_title_margin : Int)
    (color : PixelColor) : TickResult :=
  match color with
  | .WHITE =>
    { touched_wall := true,
      moveTo := some (start.1 + LINE_THICKNESS / 2,
                      start.2 + window_title_margin + LINE_THICKNESS / 2),
      success := false }
  | .RED => { touched_wall := false, moveTo := none, success := true }
  | _ => { touched_wall := false, moveTo := none, success := false }

/-- The state transition the run_test loop induces on the challenge state:
the loop body only runs while success is false, and sets success exactly
when run_test_tick reports it. -/
def tick_transition (start : Int × Int) (window_title_margin : Int)
    (st : ChallengeState) (color : PixelColor) : ChallengeState :=
  match st with
  | .Succeeded => .Succeeded
  | .InProgress =>
    if (run_test_tick start window_title_margin color).success then .Succeeded
    else .InProgress

/-- The challenge state after the run_test loop has consumed a finite list
of classified samples (starting InProgress). -/
def loop_state (start : Int × Int) (window_title_margin : Int)
    (samples : List PixelColor) : ChallengeState :=
  samples.foldl (tick_transition start window_title_margin) .InProgress

/-- Continuity of a segment list from a point: each segment starts where
the previous one ended, the first at the given point. -/
def chained (p : Int × Int) : List Segment → Bool
  | [] => true
  | s :: rest => decide (s.start = p) && chained s.line_end rest

/-- A point lies within [BORDER_MARGIN, dimension - BORDER_MARGIN] on both
axes of a W × H canvas. -/
def within (W H : Int) (p : Int × Int) : Prop :=
  BORDER_MARGIN ≤ p.1 ∧ p.1 ≤ W - BORDER_MARGIN ∧
  BORDER_MARGIN ≤ p.2 ∧ p.2 ≤ H - BORDER_MARGIN

instance (W H : Int) (p : Int × Int) : Decidable (within W H p) := by
  unfold within; infer_instance

/-- The usable size vector of create_test: canvas dimensions minus 3 and
minus BORDER_MARGIN on each axis. -/
def usable_size (W H : Int) : Int × Int :=
  (W - 3 - BORDER_MARGIN, H - 3 - BORDER_MARGIN)

/-- The segment endpoint draw_line computes before clamping: the start
point displaced by the drawn length along the drawn direction. -/
def raw_end (st : Int × Int) (r : DrawResult) : Int × Int :=
  (st.1 + r.direction.1 * r.drawn_length, st.2 + r.direction.2 * r.drawn_length)

/-- Modelled from the spec: the length upper bound the spec claims for a
segment, namely the remaining free span along the chosen axis, i.e. the
usable canvas size minus the position already consumed on that axis by
the current head point (the source's draw_line has no such subtraction;
this definition follows the spec's words for comparison). -/
def spec_free_span (size head direction : Int × Int) : Int :=
  if direction.1 ≠ 0 then size.1 - head.1 else size.2 - head.2

theorem randint_bounds (lo hi : Int) (c : Nat) (h : lo ≤ hi) :
    lo ≤ randint lo hi c ∧ randint lo hi c ≤ hi := by
  unfold randint
  have hpos : (0 : Int) < hi - lo + 1 := by omega
  have h1 : 0 ≤ (c : Int) % (hi - lo + 1) := Int.emod_nonneg _ (by omega)
  have h2 : (c : Int) % (hi - lo + 1) < hi - lo + 1 := Int.emod_lt_of_pos _ hpos
  omega

theorem unit_swap_cases (v : Int × Int) (c : Prop) [Decidable c]
    (hv : v = (1, 0) ∨ v = (-1, 0) ∨ v = (0, 1) ∨ v = (0, -1)) :
    (if c then (v.2, v.1) else v) = (1, 0) ∨ (if c then (v.2, v.1) else v) = (-1, 0) ∨
    (if c then (v.2, v.1) else v) = (0, 1) ∨ (if c then (v.2, v.1) else v) = (0, -1) := by
  rcases hv with h | h | h | h <;> subst h <;> split <;> simp

theorem determine_direction_unit (s d p : Int × Int) :
    determine_direction s d p = (1, 0) ∨ determine_direction s d p = (-1, 0) ∨
    determine_direction s d p = (0, 1) ∨ determine_direction s d p = (0, -1) := by
  unfold determine_direction
  dsimp only
  apply unit_swap_cases
  split_ifs <;> simp

theorem draw_line_covers_goal_eq (start goal_pt size : Int × Int) (end_block : Rect)
    (prev : Int × Int) (c : Nat) :
    (draw_line start goal_pt size end_block prev c).covers_goal =
      Rect.overlaps
        ⟨start.1, start.2, (draw_line start goal_pt size end_block prev c).line_end.1,
          (draw_line start goal_pt size end_block prev c).line_end.2⟩ end_block := rfl

theorem gen_loop_spec (goal_pt size : Int × Int) (end_block : Rect) :
    ∀ (cs : List Nat) (head prev : Int × Int) (l : List Segment),
      gen_loop goal_pt size end_block cs head prev = some l →
      l ≠ [] ∧ chained head l = true ∧
      (∀ s ∈ l.dropLast, Rect.overlaps (segRect s) end_block = false) ∧
      (∃ s, l.getLast? = some s ∧ Rect.overlaps (segRect s) end_block = true) := by
  intro cs
  induction cs with
  | nil => intro head prev l h; simp [gen_loop] at h
  | cons c cs ih =>
    intro head prev l h
    simp only [gen_loop] at h
    by_cases hc : (draw_line head goal_pt size end_block prev c).covers_goal = true
    · rw [if_pos hc] at h
      rcases Option.some.inj h with rfl
      rw [draw_line_covers_goal_eq] at hc
      refine ⟨by simp, by simp [chained], by simp, _, List.getLast?_singleton _, ?_⟩
      simpa [segRect] using hc
    · rw [if_neg hc] at h
      rcases Option.map_eq_some'.mp h with ⟨rest, hgen, rfl⟩
      rcases ih _ _ _ hgen with ⟨hne, hch, hdrop, s, hlast, hov⟩
      rcases List.exists_cons_of_ne_nil hne with ⟨x, xs, rfl⟩
      refine ⟨by simp, by simpa [chained] using hch, ?_, ?_⟩
      · intro s' hs'
        rw [List.dropLast_cons₂] at hs'
        rcases List.mem_cons.mp hs' with rfl | hmem
        · have hcf : (draw_line head goal_pt size end_block prev c).covers_goal = false :=
            Bool.not_eq_true _ ▸ Bool.of_not_eq_true hc
          rw [draw_line_covers_goal_eq] at hcf
          simpa [segRect] using hcf
        · exact hdrop _ hmem
      · exact ⟨s, by rw [List.getLast?_cons_cons]; exact hlast, hov⟩

theorem gen_loop_invariant (goal_pt size : Int × Int) (end_block : Rect)
    (Inv : Int × Int → Prop) (P : Segment → Prop)
    (hstep : ∀ head prev c, Inv head →
      Inv (draw_line head goal_pt size end_block prev c).line_end ∧
      P { start := head,
          line_end := (draw_line head goal_pt size end_block prev c).line_end,
          direction := (draw_line head goal_pt size end_block prev c).direction,
          drawn_length := (draw_line head goal_pt size end_block prev c).drawn_length }) :
    ∀ (cs : List Nat) (head prev : Int × Int) (l : List Segment),
      gen_loop goal_pt size end_block cs head prev = some l →
      Inv head → ∀ s ∈ l, P s := by
  intro cs
  induction cs with
  | nil => intro head prev l h; simp [gen_loop] at h
  | cons c cs ih =>
    intro head prev l h hInv
    simp only [gen_loop] at h
    by_cases hc : (draw_line head goal_pt size end_block prev c).covers_goal = true
    · rw [if_pos hc] at h
      rcases Option.some.inj h with rfl
      intro s hs
      rcases List.mem_singleton.mp hs with rfl
      exact (hstep head prev c hInv).2
    · rw [if_neg hc] at h
      rcases Option.map_eq_some'.mp h with ⟨rest, hgen, rfl⟩
      intro s hs
      rcases List.mem_cons.mp hs with rfl | hmem
      · exact (hstep head prev c hInv).2
      · exact ih _ _ _ hgen (hstep head prev c hInv).1 _ hmem

theorem clamp_mem (a bound : Int) (h : BORDER_MARGIN ≤ bound) :
    BORDER_MARGIN ≤ (if a > bound ∨ a < BORDER_MARGIN then bound else a) ∧
    (if a > bound ∨ a < BORDER_MARGIN then bound else a) ≤ bound := by
  unfold BORDER_MARGIN at *
  split_ifs with hcond
  · omega
  · omega

theorem draw_line_line_end_bounds (start goal_pt size : Int × Int) (end_block : Rect)
    (prev : Int × Int) (c : Nat) (hx : BORDER_MARGIN ≤ size.1) (hy : BORDER_MARGIN ≤ size.2) :
    BORDER_MARGIN ≤ (draw_line start goal_pt size end_block prev c).line_end.1 ∧
    (draw_line start goal_pt size end_block prev c).line_end.1 ≤ size.1 ∧
    BORDER_MARGIN ≤ (draw_line start goal_pt size end_block prev c).line_end.2 ∧
    (draw_line start goal_pt size end_block prev c).line_end.2 ≤ size.2 := by
  unfold draw_line
  dsimp only
  exact ⟨(clamp_mem _ _ hx).1, (clamp_mem _ _ hx).2, (clamp_mem _ _ hy).1, (clamp_mem _ _ hy).2⟩

theorem draw_line_direction_eq (start goal_pt size : Int × Int) (end_block : Rect)
    (prev : Int × Int) (c : Nat) :
    (draw_line start goal_pt size end_block prev c).direction =
      determine_direction start goal_pt prev := rfl

theorem draw_line_drawn_length_eq (start goal_pt size : Int × Int) (end_block : Rect)
    (prev : Int × Int) (c : Nat) :
    (draw_line start goal_pt size end_block prev c).drawn_length =
      randint MIN_LINE_LENGTH
        (if size.1 * (determine_direction start goal_pt prev).1 ≠ 0 then
          ((size.1 * (determine_direction start goal_pt prev).1).natAbs : Int)
         else ((size.2 * (determine_direction start goal_pt prev).2).natAbs : Int)) c := rfl

theorem draw_line_length_bounds (start goal_pt size : Int × Int) (end_block : Rect)
    (prev : Int × Int) (c : Nat)
    (hx : MIN_LINE_LENGTH ≤ size.1) (hy : MIN_LINE_LENGTH ≤ size.2) :
    MIN_LINE_LENGTH ≤ (draw_line start goal_pt size end_block prev c).drawn_length ∧
    (draw_line start goal_pt size end_block prev c).drawn_length ≤
      (if (draw_line start goal_pt size end_block prev c).direction.1 ≠ 0 then size.1
       else size.2) := by
  rw [draw_line_drawn_length_eq, draw_line_direction_eq]
  unfold MIN_LINE_LENGTH at *
  rcases determine_direction_unit start goal_pt prev with hd | hd | hd | hd <;>
    rw [hd] <;> dsimp only <;> norm_num
  · have h1 : (if size.1 = 0 then (0 : Int) else |size.1|) = size.1 := by
      rw [if_neg (by omega), abs_of_nonneg (by omega)]
    rw [h1]
    exact randint_bounds 5 size.1 c (by omega)
  · have h1 : (if size.1 = 0 then (0 : Int) else |size.1|) = size.1 := by
      rw [if_neg (by omega), abs_of_nonneg (by omega)]
    rw [h1]
    exact randint_bounds 5 size.1 c (by omega)
  · have h1 : |size.2| = size.2 := abs_of_nonneg (by omega)
    rw [h1]
    exact randint_bounds 5 size.2 c (by omega)
  · have h1 : |size.2| = size.2 := abs_of_nonneg (by omega)
    rw [h1]
    exact randint_bounds 5 size.2 c (by omega)

theorem create_test_cases (W H : Int) (sc stc gc : Nat) (cs : List Nat) (m : CorridorModel)
    (h : create_test W H sc stc gc cs = some m) :
    ∃ goal_pt : Int × Int,
      gen_loop goal_pt (W - 3 - BORDER_MARGIN, H - 3 - BORDER_MARGIN) m.goal cs
        m.start (0, 0) = some m.segments ∧
      (m.start = (BORDER_MARGIN, randint BORDER_MARGIN (H - 3 - BORDER_MARGIN) stc) ∨
       m.start = (randint BORDER_MARGIN (W - 3 - BORDER_MARGIN) stc, BORDER_MARGIN)) := by
  unfold create_test at h
  dsimp only at h
  split_ifs at h
  · rcases Option.map_eq_some'.mp h with ⟨segs, hgen, rfl⟩
    exact ⟨_, hgen, Or.inl rfl⟩
  · rcases Option.map_eq_some'.mp h with ⟨segs, hgen, rfl⟩
    exact ⟨_, hgen, Or.inr rfl⟩

/-- C2: for every generated corridor model, the segments form a continuous
path (the first segment starts at the start point, each later segment
starts where its predecessor ended), generation terminates exactly in the
step whose drawn rectangle overlaps the goal region (no earlier segment's
rectangle overlaps it, and no segment is drawn after it), and the final
segment's rectangle intersects the goal region. -/
theorem corridor_connectivity (W H : Int) (sc stc gc : Nat) (cs : List Nat)
    (m : CorridorModel) (h : create_test W H sc stc gc cs = some m) :
    m.segments ≠ [] ∧ chained m.start m.segments = true ∧
    (∀ s ∈ m.segments.dropLast, Rect.overlaps (segRect s) m.goal = false) ∧
    (∃ s, m.segments.getLast? = some s ∧ Rect.overlaps (segRect s) m.goal = true) := by
  rcases create_test_cases W H sc stc gc cs m h with ⟨goal_pt, hgen, _⟩
  exact gen_loop_spec goal_pt _ m.goal cs m.start (0, 0) m.segments hgen

theorem corridor_connectivity_witness :
    ([{ start := (200, 10), line_end := (200, 160), direction := (0, 1), drawn_length := 150 },
      { start := (200, 160), line_end := (250, 160), direction := (1, 0), drawn_length := 50 },
      { start := (250, 160), line_end := (100, 160), direction := (-1, 0), drawn_length := 150 },
      { start := (100, 160), line_end := (100, 287), direction := (0, 1), drawn_length := 127 }] :
        List Segment) ≠ [] ∧
    chained (200, 10)
      [{ start := (200, 10), line_end := (200, 160), direction := (0, 1), drawn_length := 150 },
       { start := (200, 160), line_end := (250, 160), direction := (1, 0), drawn_length := 50 },
       { start := (250, 160), line_end := (100, 160), direction := (-1, 0), drawn_length := 150 },
       { start := (100, 160), line_end := (100, 287), direction := (0, 1), drawn_length := 127 }] =
      true := by
  have h : create_test 400 300 1 190 90 [145, 45, 145, 122] =
      some { start := (200, 10), startRect := ⟨200, 10, 216, 26⟩,
             goal := ⟨100, 287, 116, 271⟩,
             segments :=
               [{ start := (200, 10), line_end := (200, 160),
                  direction := (0, 1), drawn_length := 150 },
                { start := (200, 160), line_end := (250, 160),
                  direction := (1, 0), drawn_length := 50 },
                { start := (250, 160), line_end := (100, 160),
                  direction := (-1, 0), drawn_length := 150 },
                { start := (100, 160), line_end := (100, 287),
                  direction := (0, 1), drawn_length := 127 }] } := by decide
  have h2 := corridor_connectivity 400 300 1 190 90 [145, 45, 145, 122] _ h
  exact ⟨h2.1, h2.2.1⟩

theorem draw_line_line_end_eq (start goal_pt size : Int × Int) (end_block : Rect)
    (prev : Int × Int) (c : Nat) :
    (draw_line start goal_pt size end_block prev c).line_end =
      (if (raw_end start (draw_line start goal_pt size end_block prev c)).1 > size.1 ∨
          (raw_end start (draw_line start goal_pt size end_block prev c)).1 < BORDER_MARGIN
       then size.1 else (raw_end start (draw_line start goal_pt size end_block prev c)).1,
       if (raw_end start (draw_line start goal_pt size end_block prev c)).2 > size.2 ∨
          (raw_end start (draw_line start goal_pt size end_block prev c)).2 < BORDER_MARGIN
       then size.2 else (raw_end start (draw_line start goal_pt size end_block prev c)).2) := rfl

/-- C8: for every generated segment, after clamping both endpoints lie
within [BORDER_MARGIN, dimension - BORDER_MARGIN] on both axes; and the
clamp snaps an axis's endpoint to the usable canvas edge whenever the
computed endpoint would exceed that bound or fall below the margin on
that axis. -/
theorem corridor_bounds_invariant (W H : Int) (sc stc gc : Nat) (cs : List Nat)
    (m : CorridorModel) (hW : 36 ≤ W) (hH : 36 ≤ H)
    (h : create_test W H sc stc gc cs = some m) :
    (∀ s ∈ m.segments, within W H s.start ∧ within W H s.line_end) ∧
    (∀ (st gp prev : Int × Int) (eb : Rect) (c : Nat),
      ((raw_end st (draw_line st gp (usable_size W H) eb prev c)).1 > (usable_size W H).1 ∨
        (raw_end st (draw_line st gp (usable_size W H) eb prev c)).1 < BORDER_MARGIN →
        (draw_line st gp (usable_size W H) eb prev c).line_end.1 = (usable_size W H).1) ∧
      ((raw_end st (draw_line st gp (usable_size W H) eb prev c)).2 > (usable_size W H).2 ∨
        (raw_end st (draw_line st gp (usable_size W H) eb prev c)).2 < BORDER_MARGIN →
        (draw_line st gp (usable_size W H) eb prev c).line_end.2 = (usable_size W H).2)) := by
  rcases create_test_cases W H sc stc gc cs m h with ⟨goal_pt, hgen, hstart⟩
  constructor
  · have hsx : BORDER_MARGIN ≤ W - 3 - BORDER_MARGIN := by unfold BORDER_MARGIN; omega
    have hsy : BORDER_MARGIN ≤ H - 3 - BORDER_MARGIN := by unfold BORDER_MARGIN; omega
    refine gen_loop_invariant goal_pt (W - 3 - BORDER_MARGIN, H - 3 - BORDER_MARGIN) m.goal
      (fun p => BORDER_MARGIN ≤ p.1 ∧ p.1 ≤ W - 3 - BORDER_MARGIN ∧
        BORDER_MARGIN ≤ p.2 ∧ p.2 ≤ H - 3 - BORDER_MARGIN)
      (fun s => within W H s.start ∧ within W H s.line_end)
      ?_ cs m.start (0, 0) m.segments hgen ?_
    · intro head prev c hInv
      have hb := draw_line_line_end_bounds head goal_pt
        (W - 3 - BORDER_MARGIN, H - 3 - BORDER_MARGIN) m.goal prev c hsx hsy
      dsimp only at hb ⊢
      unfold within BORDER_MARGIN at *
      omega
    · rcases hstart with hst | hst <;> rw [hst]
      · have hr := randint_bounds BORDER_MARGIN (H - 3 - BORDER_MARGIN) stc hsy
        dsimp only
        unfold BORDER_MARGIN at *
        omega
      · have hr := randint_bounds BORDER_MARGIN (W - 3 - BORDER_MARGIN) stc hsx
        dsimp only
        unfold BORDER_MARGIN at *
        omega
  · intro st gp prev eb c
    constructor
    · intro hcond
      rw [draw_line_line_end_eq]
      dsimp only
      rw [if_pos hcond]
    · intro hcond
      rw [draw_line_line_end_eq]
      dsimp only
      rw [if_pos hcond]

example :
    create_test 400 300 1 370 370 [275] =
      some { start := (380, 10), startRect := ⟨380, 10, 396, 26⟩,
             goal := ⟨380, 287, 396, 271⟩,
             segments := [{ start := (380, 10), line_end := (380, 287),
                            direction := (0, 1), drawn_length := 280 }] } := by decide

theorem corridor_bounds_invariant_witness :
    within 400 300 (380, 10) ∧ within 400 300 (380, 287) := by
  have h : create_test 400 300 1 370 370 [275] =
      some { start := (380, 10), startRect := ⟨380, 10, 396, 26⟩,
             goal := ⟨380, 287, 396, 271⟩,
             segments := [{ start := (380, 10), line_end := (380, 287),
                            direction := (0, 1), drawn_length := 280 }] } := by decide
  have h2 := (corridor_bounds_invariant 400 300 1 370 370 [275] _
    (by norm_num) (by norm_num) h).1
  exact h2 { start := (380, 10), line_end := (380, 287),
             direction := (0, 1), drawn_length := 280 } (by simp)

/-- C3 (amended): every drawn segment's random length lies between
MIN_LINE_LENGTH and the full usable span on the chosen axis (usable_size,
i.e. the canvas dimension minus 3 minus BORDER_MARGIN), independent of
the position already consumed on that axis. -/
theorem segment_length_bounds (W H : Int) (sc stc gc : Nat) (cs : List Nat)
    (m : CorridorModel) (hW : 36 ≤ W) (hH : 36 ≤ H)
    (h : create_test W H sc stc gc cs = some m) :
    ∀ s ∈ m.segments,
      MIN_LINE_LENGTH ≤ s.drawn_length ∧
      s.drawn_length ≤
        (if s.direction.1 ≠ 0 then (usable_size W H).1 else (usable_size W H).2) := by
  rcases create_test_cases W H sc stc gc cs m h with ⟨goal_pt, hgen, _⟩
  have hsx : MIN_LINE_LENGTH ≤ W - 3 - BORDER_MARGIN := by
    unfold MIN_LINE_LENGTH BORDER_MARGIN; omega
  have hsy : MIN_LINE_LENGTH ≤ H - 3 - BORDER_MARGIN := by
    unfold MIN_LINE_LENGTH BORDER_MARGIN; omega
  refine gen_loop_invariant goal_pt (W - 3 - BORDER_MARGIN, H - 3 - BORDER_MARGIN) m.goal
    (fun _ => True)
    (fun s => MIN_LINE_LENGTH ≤ s.drawn_length ∧
      s.drawn_length ≤
        (if s.direction.1 ≠ 0 then (usable_size W H).1 else (usable_size W H).2))
    ?_ cs m.start (0, 0) m.segments hgen trivial
  intro head prev c _
  refine ⟨trivial, ?_⟩
  have hb := draw_line_length_bounds head goal_pt
    (W - 3 - BORDER_MARGIN, H - 3 - BORDER_MARGIN) m.goal prev c hsx hsy
  unfold usable_size
  dsimp only at hb ⊢
  exact hb

theorem segment_length_bounds_witness :
    MIN_LINE_LENGTH ≤ (280 : Int) ∧
    (280 : Int) ≤ (if ((0 : Int), (1 : Int)).1 ≠ 0 then (usable_size 400 300).1
                   else (usable_size 400 300).2) := by
  have h : create_test 400 300 1 370 370 [275] =
      some { start := (380, 10), startRect := ⟨380, 10, 396, 26⟩,
             goal := ⟨380, 287, 396, 271⟩,
             segments := [{ start := (380, 10), line_end := (380, 287),
                            direction := (0, 1), drawn_length := 280 }] } := by decide
  exact segment_length_bounds 400 300 1 370 370 [275] _ (by norm_num) (by norm_num) h
    { start := (380, 10), line_end := (380, 287), direction := (0, 1), drawn_length := 280 }
    (by simp)

/-- C3 counterexample: in the generated run with canvas 400 × 300, start
side top, start (380, 10), the single segment's random length is 280,
which exceeds 277, the spec's remaining-free-span bound for that segment
(usable span 287 minus the 10 already consumed on the y axis): the code
draws the length bounded by the full usable span, without subtracting
the consumed position. -/
theorem segment_length_spec_bound_fails :
    ((create_test 400 300 1 370 370 [275]).map fun m =>
      m.segments.map fun s =>
        (s.drawn_length, spec_free_span (usable_size 400 300) s.start s.direction)) =
      some [(280, 277)] ∧ ¬ ((280 : Int) ≤ 277) :=
  ⟨by decide, by decide⟩

/-- C1: in the generated run with canvas 400 × 300, start side top, start
(200, 10), goal (100, 287) and drawn lengths 150, 50, 150, 127, the third
segment's direction (-1, 0) is the exact opposite of the second segment's
direction (1, 0): the generator does emit a segment whose direction is
the exact opposite of its predecessor's.  (In determine_direction the
numpy boolean-mask indexing reduces the previous direction to its nonzero
components, so the shape-sensitive array_equal comparison with the
two-component proposed direction never matches and the 90-degree rotation
is never applied to an exact-opposite proposal.) -/
theorem no_backtrack_invariant_fails :
    ((create_test 400 300 1 190 90 [145, 45, 145, 122]).map fun m =>
      ((m.segments.map Segment.direction)[1]?, (m.segments.map Segment.direction)[2]?)) =
      some (some (1, 0), some (-1, 0)) ∧
    ((-1 : Int), (0 : Int)) = (-(1 : Int), -(0 : Int)) :=
  ⟨by decide, by decide⟩

/-- C4 counterexample: with previous sample (0, 0) and current sample
(10, 0) the corrector repositions the pointer to x = -10, which is not
the previous sample's coordinate 0 on the dominant axis. -/
theorem correction_not_previous_coordinate :
    (handle_cheating (0, 0) (10, 0)).moveTo = some (-10, 0) ∧ ((-10 : Int) ≠ 0) :=
  ⟨by decide, by decide⟩

/-- C4 (amended): whenever the dominant-axis displacement magnitude
exceeds the precision threshold, the pointer is repositioned so that the
dominant-axis coordinate becomes the previous sample's coordinate minus
the displacement (the jump mirrored about the previous sample, i.e.
2 * previous - current), while the perpendicular axis keeps the current
sample's position. -/
theorem correction_amount (prev cur : Int × Int)
    (hth : PRECISION_MOUSE_THRESHOLD.toNat <
      max (cur.1 - prev.1).natAbs (cur.2 - prev.2).natAbs) :
    (handle_cheating prev cur).moveTo =
      (if (cur.2 - prev.2).natAbs < (cur.1 - prev.1).natAbs
       then some (prev.1 - (cur.1 - prev.1), cur.2)
       else some (cur.1, prev.2 - (cur.2 - prev.2))) := by
  unfold handle_cheating PRECISION_MOUSE_THRESHOLD at *
  dsimp only
  split_ifs <;>
    first
    | (simp only [Option.some.injEq, Prod.mk.injEq]; constructor <;> ring_nf)
    | (exfalso; omega)

theorem correction_amount_witness :
    PRECISION_MOUSE_THRESHOLD.toNat <
      max ((10 : Int) - 0).natAbs ((0 : Int) - 0).natAbs ∧
    (handle_cheating (0, 0) (10, 0)).moveTo =
      (if ((0 : Int) - 0).natAbs < ((10 : Int) - 0).natAbs
       then some ((0 : Int) - ((10 : Int) - 0), (0 : Int))
       else some ((10 : Int), (0 : Int) - ((0 : Int) - 0))) :=
  ⟨by decide, correction_amount (0, 0) (10, 0) (by decide)⟩

/-- C5: a displacement whose dominant-axis magnitude is exactly the
precision threshold triggers no correction, while a displacement one unit
beyond it triggers a correction on the dominant axis only, the reposition
target keeping the current sample's coordinate on the perpendicular
axis. -/
theorem threshold_boundary (prev cur : Int × Int) :
    (max (cur.1 - prev.1).natAbs (cur.2 - prev.2).natAbs = PRECISION_MOUSE_THRESHOLD.toNat →
      (handle_cheating prev cur).moveTo = none) ∧
    (max (cur.1 - prev.1).natAbs (cur.2 - prev.2).natAbs = PRECISION_MOUSE_THRESHOLD.toNat + 1 →
      (if (cur.2 - prev.2).natAbs < (cur.1 - prev.1).natAbs
       then (handle_cheating prev cur).moveTo = some (prev.1 - (cur.1 - prev.1), cur.2)
       else (handle_cheating prev cur).moveTo = some (cur.1, prev.2 - (cur.2 - prev.2)))) := by
  unfold handle_cheating PRECISION_MOUSE_THRESHOLD
  dsimp only
  constructor
  · intro hmax
    split_ifs <;> first | rfl | (exfalso; omega)
  · intro hmax
    split_ifs <;>
      first
      | (simp only [Option.some.injEq, Prod.mk.injEq]; constructor <;> ring_nf)
      | (exfalso; omega)

theorem threshold_boundary_witness :
    (handle_cheating (0, 0) (7, 3)).moveTo = none ∧
    (handle_cheating (0, 0) (8, 3)).moveTo = some ((0 : Int) - ((8 : Int) - 0), (3 : Int)) := by
  refine ⟨(threshold_boundary (0, 0) (7, 3)).1 (by decide), ?_⟩
  have h := (threshold_boundary (0, 0) (8, 3)).2 (by decide)
  rw [if_pos (by decide)] at h
  exact h

/-- C10: when the absolute displacements on the two axes are exactly
equal, the corrector takes the vertical branch: an over-threshold
equal-magnitude jump is corrected on the y axis only, the reposition
target keeping the current sample's x coordinate. -/
theorem tie_goes_vertical (prev cur : Int × Int)
    (heq : (cur.1 - prev.1).natAbs = (cur.2 - prev.2).natAbs)
    (hth : PRECISION_MOUSE_THRESHOLD < ((cur.2 - prev.2).natAbs : Int)) :
    (handle_cheating prev cur).moveTo = some (cur.1, prev.2 - (cur.2 - prev.2)) ∧
    (handle_cheating prev cur).new_previous = (cur.1, prev.2 - (cur.2 - prev.2)) := by
  unfold handle_cheating PRECISION_MOUSE_THRESHOLD at *
  dsimp only
  rw [if_neg (by omega), if_pos (by omega)]
  constructor <;> (simp only [Option.some.injEq, Prod.mk.injEq]; constructor <;> ring_nf)

theorem tie_goes_vertical_witness :
    ((8 : Int) - 0).natAbs = ((8 : Int) - 0).natAbs ∧
    PRECISION_MOUSE_THRESHOLD < ((((8 : Int) - 0).natAbs : Nat) : Int) ∧
    (handle_cheating (0, 0) (8, 8)).moveTo = some ((8 : Int), (0 : Int) - ((8 : Int) - 0)) :=
  ⟨rfl, by decide, (tie_goes_vertical (0, 0) (8, 8) rfl (by decide)).1⟩

theorem loop_state_succeeded_absorb (start : Int × Int) (wtm : Int)
    (samples : List PixelColor) :
    samples.foldl (tick_transition start wtm) ChallengeState.Succeeded =
      ChallengeState.Succeeded := by
  induction samples with
  | nil => rfl
  | cons c cs ih => simpa [tick_transition] using ih

theorem loop_state_eq_succeeded_iff (start : Int × Int) (wtm : Int)
    (samples : List PixelColor) :
    loop_state start wtm samples = ChallengeState.Succeeded ↔
      PixelColor.RED ∈ samples := by
  induction samples with
  | nil => simp [loop_state]
  | cons c cs ih =>
    unfold loop_state at *
    rw [List.foldl_cons]
    cases c with
    | RED => simp [tick_transition, run_test_tick, loop_state_succeeded_absorb]
    | GREEN => simpa [tick_transition, run_test_tick] using ih
    | BLACK => simpa [tick_transition, run_test_tick] using ih
    | WHITE => simpa [tick_transition, run_test_tick] using ih

/-- C6 (amended): on every Wall-classified sample the tracker emits the
touched-wall notification, teleports the pointer to the recorded start
coordinate offset by half the line thickness on each axis plus the window
title margin on the y axis, and does not succeed; after any number of
consecutive Wall samples the challenge state is still InProgress, never
Succeeded. -/
theorem wall_touch_reset (start : Int × Int) (wtm : Int) (samples : List PixelColor)
    (hall : ∀ c ∈ samples, c = PixelColor.WHITE) :
    (∀ c ∈ samples,
      (run_test_tick start wtm c).touched_wall = true ∧
      (run_test_tick start wtm c).moveTo =
        some (start.1 + LINE_THICKNESS / 2, start.2 + wtm + LINE_THICKNESS / 2) ∧
      (run_test_tick start wtm c).success = false) ∧
    loop_state start wtm samples = ChallengeState.InProgress := by
  constructor
  · intro c hc
    rw [hall c hc]
    exact ⟨rfl, rfl, rfl⟩
  · have hnored : PixelColor.RED ∉ samples := by
      intro hmem
      exact absurd (hall _ hmem) (by decide)
    cases hq : loop_state start wtm samples with
    | InProgress => rfl
    | Succeeded =>
      exact absurd ((loop_state_eq_succeeded_iff start wtm samples).mp hq) hnored

theorem wall_touch_reset_witness :
    (run_test_tick (10, 150) 30 PixelColor.WHITE).moveTo =
      some (10 + LINE_THICKNESS / 2, 150 + 30 + LINE_THICKNESS / 2) ∧
    loop_state (10, 150) 30 [PixelColor.WHITE, PixelColor.WHITE] =
      ChallengeState.InProgress := by
  have h := wall_touch_reset (10, 150) 30 [PixelColor.WHITE, PixelColor.WHITE] (by decide)
  exact ⟨(h.1 PixelColor.WHITE (by simp)).2.1, h.2⟩

/-- C6 counterexample: with window title margin 30 and start (10, 150),
the wall-touch teleport targets (14, 184), which is not the start
coordinate offset by half the line thickness on each axis (that would be
(14, 154)): the y target additionally includes the window title margin. -/
theorem wall_reset_target_not_plain_start_offset :
    (run_test_tick (10, 150) 30 PixelColor.WHITE).moveTo = some (14, 184) ∧
    (run_test_tick (10, 150) 30 PixelColor.WHITE).moveTo ≠
      some (10 + LINE_THICKNESS / 2, 150 + LINE_THICKNESS / 2) :=
  ⟨by decide, by decide⟩

/-- C9: the tracking loop's only exit is Succeeded, entered exactly on a
Goal-classified (RED) sample: an InProgress step succeeds precisely when
the sample is RED, and a finite run of samples ends Succeeded precisely
when some sample is RED — on Corridor, Start or Wall samples the loop
keeps polling, with no timeout or abort path. -/
theorem exit_only_on_goal (start : Int × Int) (wtm : Int) :
    (∀ c : PixelColor,
      tick_transition start wtm ChallengeState.InProgress c =
        (if c = PixelColor.RED then ChallengeState.Succeeded
         else ChallengeState.InProgress)) ∧
    (∀ samples : List PixelColor,
      loop_state start wtm samples = ChallengeState.Succeeded ↔
        PixelColor.RED ∈ samples) := by
  constructor
  · intro c
    cases c <;> rfl
  · exact loop_state_eq_succeeded_iff start wtm

theorem exit_only_on_goal_witness :
    tick_transition (0, 0) 25 ChallengeState.InProgress PixelColor.WHITE =
      ChallengeState.InProgress ∧
    loop_state (0, 0) 25 [PixelColor.BLACK, PixelColor.RED] = ChallengeState.Succeeded := by
  refine ⟨?_, ((exit_only_on_goal (0, 0) 25).2 [PixelColor.BLACK, PixelColor.RED]).mpr (by simp)⟩
  have h := (exit_only_on_goal (0, 0) 25).1 PixelColor.WHITE
  simpa using h

/-- C7: a query point inside the goal rectangle is classified "RED"
(Goal) and never "BLACK" (Corridor), even when it also lies inside an
overlapping thickened corridor segment rectangle: get_pixel_color checks
the goal color before the corridor color. -/
theorem classification_goal_precedence (m : CorridorModel) (x y : Int)
    (hg : Rect.overlaps m.goal ⟨x, y, x, y⟩ = true)
    (_hc : ∃ s ∈ m.segments,
      Rect.overlaps (thicken (segRect s) LINE_THICKNESS) ⟨x, y, x, y⟩ = true) :
    get_pixel_color (model_canvas m) x y = "RED" ∧
    get_pixel_color (model_canvas m) x y ≠ "BLACK" := by
  have hred : "RED" ∈
      (((model_canvas m).filter fun it => Rect.overlaps it.rect ⟨x, y, x, y⟩).map
        fun it => upper it.fill).filter fun color => color ≠ "" := by
    refine List.mem_filter.mpr ⟨?_, by decide⟩
    refine List.mem_map.mpr
      ⟨{ rect := m.goal, fill := "red" }, ?_, (by decide : upper "red" = "RED")⟩
    refine List.mem_filter.mpr ⟨?_, hg⟩
    simp [model_canvas]
  unfold get_pixel_color
  dsimp only
  rw [if_pos hred]
  exact ⟨rfl, by decide⟩

theorem classification_goal_precedence_witness :
    get_pixel_color
      (model_canvas
        { start := (380, 10), startRect := ⟨380, 10, 396, 26⟩,
          goal := ⟨380, 287, 396, 271⟩,
          segments := [{ start := (380, 10), line_end := (380, 287),
                         direction := (0, 1), drawn_length := 280 }] }) 382 275 = "RED" :=
  (classification_goal_precedence _ 382 275 (by decide)
    ⟨{ start := (380, 10), line_end := (380, 287), direction := (0, 1), drawn_length := 280 },
      by simp, by decide⟩).1

end WakeyWakey
